import Mathlib

/-!
# LinkReach — verification of the upload → generate → validate → execute → publish pipeline

Shallow embedding of the LinkReach repository (Winshift/LinkReach).  The
repository is a small FastAPI service: a user uploads a CSV of professional
connections, describes a filter in natural language, an LLM returns one line
of pandas code, the code is validated, executed against the stored table, and
the result is persisted under a timestamped filename.

External, non-deterministic pieces of the host (the Python `compile` builtin,
`pandas.read_csv`, the OpenAI call, `exec` of the generated code string,
`DataFrame.to_dict`) are modelled as oracle parameters: the embedding fixes
exactly the control flow the repository's own Python code performs around
those calls, which is what the claims are about.
-/

namespace LinkReach

/-- A Python exception, abstracted: only its presence and message matter to the
    control flow of this repository (`except Exception` everywhere). -/
structure PyErr where
  msg : String
deriving DecidableEq, Repr

/-- An in-memory table (`pandas.DataFrame`): ordered named columns and rows.
    Cell values are abstracted to strings; the claims only use record-for-record
    equality, row counts and column counts. -/
structure Table where
  cols : List String
  rows : List (List String)
deriving DecidableEq, Repr

/-- The empty frame `pandas.DataFrame()` returned by `validate_csv` on failure. -/
def emptyTable : Table := ⟨[], []⟩

/-- Pandas `df.empty`: true when any axis has length zero. -/
def Table.isEmpty (t : Table) : Bool := t.rows.isEmpty || t.cols.isEmpty

/-- Row count, `len(df)`. -/
def Table.rowCount (t : Table) : Nat := t.rows.length

/-- Column count, `len(df.columns)`. -/
def Table.colCount (t : Table) : Nat := t.cols.length

/-! ## ai_service.validate_filter_code (src/backend/services/ai_service.py:71-91)

```python
def validate_filter_code(self, code: str) -> bool:
    try:
        if not code.startswith("df = df["):
            return False
        compile(code, '<string>', 'exec')
        return True
    except Exception:
        return False
```

The Python builtin `compile` is the host engine's syntax check; it is modelled
as an oracle `compile_ : String → Except PyErr Unit` (it either succeeds or
raises some exception, e.g. `SyntaxError`).  Python's `str.startswith` is the
prefix test on the character sequence, embedded as `List.isPrefixOf` over the
string's characters. -/

/-- Python `code.startswith(pre)`: `pre` is a prefix of `code`, character by character. -/
def pyStartswith (code pre : String) : Bool := pre.data.isPrefixOf code.data

/-- Body of `validate_filter_code` inside the `try:` block: the prefix test,
    then the call to `compile` whose exception propagates to the handler. -/
def validate_body (compile_ : String → Except PyErr Unit) (code : String) :
    Except PyErr Bool :=
  if !pyStartswith code "df = df[" then
    Except.ok false
  else
    match compile_ code with
    | Except.ok _ => Except.ok true
    | Except.error e => Except.error e

/-- The function `validate_filter_code`: the `try/except Exception` wrapper turns any
    exception raised inside the body into `False`. -/
def validate_filter_code (compile_ : String → Except PyErr Unit) (code : String) :
    Bool :=
  match validate_body compile_ code with
  | Except.ok b => b
  | Except.error _ => false

/-! ## csv_service.validate_csv (src/backend/services/csv_service.py:18-40)

```python
def validate_csv(self, file_content: bytes):
    try:
        for encoding in ['utf-8', 'latin-1', 'cp1252']:
            try:
                df = pd.read_csv(io.BytesIO(file_content), encoding=encoding)
                return True, "", df
            except UnicodeDecodeError:
                continue
            except Exception as e:
                continue
        return False, "Unable to read CSV file. Please ensure it's a valid CSV format.", pd.DataFrame()
    except Exception as e:
        return False, f"Error processing CSV file: {str(e)}", pd.DataFrame()
```

`pandas.read_csv` on the uploaded bytes is an oracle indexed by the attempted
encoding: for a fixed byte content it either yields a table or raises
(`UnicodeDecodeError`, parser errors, ...).  Both `except` arms of the inner
loop `continue`, so any exception moves to the next encoding.  The outer
`except` is unreachable: every statement that can raise sits inside the inner
handlers, so the model is the loop itself. -/

/-- The character encodings attempted, in the source's fixed order. -/
inductive Encoding
  | utf8
  | latin1
  | cp1252
deriving DecidableEq, Repr

/-- The list `['utf-8', 'latin-1', 'cp1252']`. -/
def encodingList : List Encoding := [Encoding.utf8, Encoding.latin1, Encoding.cp1252]

/-- The inner `for encoding in [...]` loop: first encoding whose parse
    succeeds wins; every exception falls through to the next iteration. -/
def tryEncodings (readCsv : Encoding → Except PyErr Table) :
    List Encoding → Option Table
  | [] => none
  | e :: rest =>
    match readCsv e with
    | Except.ok df => some df
    | Except.error _ => tryEncodings readCsv rest

/-- The error message returned when every encoding fails. -/
def csvFailMsg : String :=
  "Unable to read CSV file. Please ensure it's a valid CSV format."

/-- The function `validate_csv`, returning the `(is_valid, error_message, dataframe)` triple. -/
def validate_csv (readCsv : Encoding → Except PyErr Table) :
    Bool × String × Table :=
  match tryEncodings readCsv encodingList with
  | some df => (true, "", df)
  | none => (false, csvFailMsg, emptyTable)

/-! ## csv_service.get_preview_data (src/backend/services/csv_service.py:42-49)

```python
def get_preview_data(self, df, max_rows=5):
    try:
        preview_df = df.head(max_rows)
        return preview_df.to_dict('records')
    except Exception as e:
        return []
```

`DataFrame.to_dict('records')`, when it succeeds, returns one field-name→value
mapping per row, in row order; the `try/except` turns any internal exception
into the empty list.  Whether the conversion raises is an oracle
(`toDictErr`); its success value is the actual record list. -/

/-- A row record: an ordered mapping from field name to value. -/
abbrev Rec : Type := List (String × String)

/-- Pandas `df.head(n)`: the first `min n (rowCount df)` rows, columns unchanged. -/
def Table.head (t : Table) (n : Nat) : Table := ⟨t.cols, t.rows.take n⟩

/-- Pandas `df.to_dict('records')` on success: each row zipped with the column names. -/
def Table.toRecords (t : Table) : List Rec :=
  t.rows.map (fun r => t.cols.zip r)

/-- The function `get_preview_data`: head, then record conversion, any exception → `[]`. -/
def get_preview_data (toDictErr : Table → Option PyErr) (df : Table)
    (max_rows : Nat := 5) : List Rec :=
  match toDictErr (df.head max_rows) with
  | some _ => []
  | none => (df.head max_rows).toRecords

/-- A concrete compile oracle accepting every input, standing for the real
    `compile` on strings that are syntactically valid Python. -/
def compileOk : String → Except PyErr Unit := fun _ => Except.ok ()

/-- A concrete compile oracle rejecting every input, standing for the real
    `compile` on strings that are not valid Python. -/
def compileFail : String → Except PyErr Unit :=
  fun _ => Except.error ⟨"SyntaxError"⟩

/-- A parse oracle on which every encoding raises (e.g. content that is not
    CSV under any attempted decoding). -/
def readAllFail : Encoding → Except PyErr Table :=
  fun _ => Except.error ⟨"ParserError"⟩

/-- A demonstration table of professional connections. -/
def demoTable : Table :=
  ⟨["Name", "Position"],
   [["Alice", "HR Manager"], ["Bob", "Software Engineer"], ["Carol", "Recruiter"]]⟩

/-- A parse oracle on which decoding fails for UTF-8 but the first legacy
    encoding parses. -/
def readLatin1Ok : Encoding → Except PyErr Table
  | Encoding.utf8 => Except.error ⟨"UnicodeDecodeError"⟩
  | Encoding.latin1 => Except.ok demoTable
  | Encoding.cp1252 => Except.ok emptyTable

/-- A `to_dict` oracle that never raises. -/
def noDictErr : Table → Option PyErr := fun _ => none

/-- A `to_dict` oracle that raises on every table. -/
def failDictErr : Table → Option PyErr := fun _ => some ⟨"ValueError"⟩

/-! ## Executing generated code

routes.py:102-105 and main.py:118-121:
```python
local_vars = {'df': df.copy()}
exec(filter_code, {}, local_vars)
filtered_df = local_vars['df']
```
app.py:79-82 (the CLI pipeline):
```python
local_vars = {'df': df}
exec(filter_code, {}, local_vars)
filtered_df = local_vars['df']
```

Python DataFrames are heap objects and variables hold references; `exec` with
empty globals can reach exactly the objects referenced from `local_vars`.  A
validated code string may mutate the object bound to `df` in place before the
`df = df[...]` rebinding takes effect — e.g. the compiling, prefix-respecting
line `df = df[[c for c in df.columns if df.drop(df.index, inplace=True) is None]]`
empties the bound DataFrame in place while evaluating the indexer.  The
semantics of executing a code string is therefore a pair of functions of the
bound object's value: the object's content after execution (`inPlace`) and the
final value of the name `df` (`result`). -/

/-- Semantics of `exec`-ing one generated code string on the object bound to
    `df`: the in-place effect on that object and the final value of `df`. -/
structure CodeEffect where
  inPlace : Table → Table
  result : Table → Table

/-- A fragment of the Python heap: object ids mapped to DataFrame contents. -/
abbrev Heap : Type := List (Nat × Table)

/-- Content of the object with id `i`. -/
def Heap.lookup : Heap → Nat → Option Table
  | [], _ => none
  | (j, t) :: rest, i => if j = i then some t else Heap.lookup rest i

/-- Overwrite the content of the object with id `i` (in-place mutation). -/
def Heap.set : Heap → Nat → Table → Heap
  | [], _, _ => []
  | (j, t) :: rest, i, t' =>
    if j = i then (j, t') :: Heap.set rest i t' else (j, t) :: Heap.set rest i t'

/-- Allocate a fresh object with id `i` (what `df.copy()` does). -/
def Heap.alloc (h : Heap) (i : Nat) (t : Table) : Heap := (i, t) :: h

/-- The API executor (routes.py:102-105, main.py:118-121): `df.copy()`
    allocates a fresh object with the stored content, `exec` runs against that
    copy, and `filtered_df` is the final value of the name `df`. -/
def execOnCopy (h : Heap) (storedId copyId : Nat) (code : CodeEffect) :
    Heap × Option Table :=
  match h.lookup storedId with
  | none => (h, none)
  | some df =>
    (((h.alloc copyId df).set copyId (code.inPlace df)), some (code.result df))

/-- The CLI executor (app.py:79-82): `local_vars = {'df': df}` binds the
    caller's own object, so the code's in-place effect lands on it. -/
def execNoCopy (h : Heap) (dfId : Nat) (code : CodeEffect) :
    Heap × Option Table :=
  match h.lookup dfId with
  | none => (h, none)
  | some df => (h.set dfId (code.inPlace df), some (code.result df))

/-- The effect of the in-place-emptying validated line shown above: the bound
    object ends with zero rows, and the rebound `df` is the empty selection. -/
def dropAllInPlace : CodeEffect :=
  ⟨fun t => ⟨t.cols, []⟩, fun t => ⟨t.cols, []⟩⟩

/-- A one-object heap holding the caller's table. -/
def demoHeap : Heap := [(0, demoTable)]

/-! ## csv_service.save_filtered_results (src/backend/services/csv_service.py:51-63)

```python
def save_filtered_results(self, df, filename=None):
    try:
        if filename is None:
            filename = f"filtered_results_{pd.Timestamp.now().strftime('%Y%m%d_%H%M%S')}.csv"
        file_path = self.temp_dir / filename
        df.to_csv(file_path, index=False)
        return str(file_path)
    except Exception as e:
        raise
```

`pd.Timestamp.now()` has nanosecond resolution, but `strftime('%Y%m%d_%H%M%S')`
renders only the zero-padded calendar fields down to whole seconds.  The
timestamp observed by a publish call is a parameter; `temp_dir` is the fixed
per-process directory `tempfile.gettempdir()/"linkedin_filter"`, modelled as a
constant. -/

/-- A wall-clock instant as `pd.Timestamp.now()` observes it. -/
structure Timestamp where
  year : Nat
  month : Nat
  day : Nat
  hour : Nat
  minute : Nat
  second : Nat
  nanosecond : Nat
deriving DecidableEq, Repr

/-- The decimal digit character for `n` (meaningful for `n < 10`). -/
def digitChar (n : Nat) : Char := Char.ofNat (48 + n)

/-- Zero-padded two-digit rendering, as `%m`/`%d`/`%H`/`%M`/`%S` produce. -/
def pad2 (n : Nat) : List Char := [digitChar (n / 10), digitChar (n % 10)]

/-- Zero-padded four-digit rendering, as `%Y` produces for calendar years. -/
def pad4 (n : Nat) : List Char :=
  [digitChar (n / 1000), digitChar (n / 100 % 10), digitChar (n / 10 % 10),
   digitChar (n % 10)]

/-- The format `strftime('%Y%m%d_%H%M%S')`: the second-resolution fields only; the
    nanosecond field does not appear. -/
def strftimeYmdHMS (t : Timestamp) : List Char :=
  pad4 t.year ++ pad2 t.month ++ pad2 t.day ++ ['_'] ++ pad2 t.hour ++
    pad2 t.minute ++ pad2 t.second

/-- The generated artifact filename for a publish at instant `t`. -/
def publishFilename (t : Timestamp) : String :=
  "filtered_results_" ++ String.mk (strftimeYmdHMS t) ++ ".csv"

/-- The fixed artifact directory `tempfile.gettempdir()/"linkedin_filter"`. -/
def tempDir : String := "/tmp/linkedin_filter"

/-- The function `save_filtered_results`: the returned download path.  Writing the CSV and
    the re-raising `except` arm do not affect the name computation. -/
def save_filtered_results (t : Timestamp) (filename : Option String) : String :=
  tempDir ++ "/" ++ filename.getD (publishFilename t)

/-- The second-resolution part of an instant — everything the filename can see. -/
def Timestamp.secondsTrunc (t : Timestamp) : Nat × Nat × Nat × Nat × Nat × Nat :=
  (t.year, t.month, t.day, t.hour, t.minute, t.second)

/-- Field bounds under which `strftime`'s paddings are the full decimal
    renderings (true of every real wall-clock instant). -/
def Timestamp.fieldsInRange (t : Timestamp) : Prop :=
  t.year < 10000 ∧ t.month < 100 ∧ t.day < 100 ∧ t.hour < 100 ∧
    t.minute < 100 ∧ t.second < 100

/-- A publish instant. -/
def tsA : Timestamp := ⟨2026, 10, 12, 9, 30, 0, 0⟩

/-- A distinct publish instant inside the same calendar second. -/
def tsB : Timestamp := ⟨2026, 10, 12, 9, 30, 0, 999999999⟩

/-! ## HTTP orchestration

Two parallel endpoint sets exist in the repository:

* `src/backend/api/routes.py` — upload stores the parsed DataFrame in a pickle
  file keyed by a fresh uuid `file_id`; filter resolves `file_id` (missing/empty
  → 400, no pickle file → 400) before calling the generator.
* `src/main.py` — the application that `run.py` and `main.py`'s `__main__`
  actually serve.  Upload appends to the process-global dict `_uploaded_data`
  under the key `f"file_{len+1}"` and returns no `file_id`; filter ignores the
  request's `file_id` and always uses the first stored entry.

`HTTPException(status_code=400/404/500, detail)` is modelled by `ApiError`. -/

/-- User-facing error classes: 400, 404 and 500 `HTTPException`s. -/
inductive ApiError
  | invalidInput (detail : String)
  | notFound (detail : String)
  | serverError (detail : String)
deriving DecidableEq, Repr

/-- Python's `s.endswith(suffix)`. -/
def pyEndswith (s suffix : String) : Bool := suffix.data.isSuffixOf s.data

/-- Schema `FileUploadResponse` (src/backend/models/schemas.py:25-32), minus the
    constant `success=True` flag. -/
structure FileUploadResponse where
  message : String
  total_rows : Nat
  columns : List String
  preview_data : List Rec
  file_id : Option String
deriving DecidableEq, Repr

/-- Schema `FilterResponse` (src/backend/models/schemas.py:10-17), minus the constant
    `success=True` flag. -/
structure FilterResponse where
  message : String
  filtered_count : Nat
  total_count : Nat
  preview_data : List Rec
  download_url : String
deriving DecidableEq, Repr

/-- A filter request (`FilterRequest`, schemas.py:5-8). -/
structure FilterRequest where
  prompt : String
  file_id : Option String
deriving DecidableEq, Repr

/-- The routes.py store: pickle files `linkedin_upload_{file_id}.pkl` keyed by
    `file_id`; writing a file shadows an earlier write under the same id. -/
abbrev Store : Type := List (String × Table)

/-- Resolving a `file_id` to its pickled table. -/
def Store.lookup : Store → String → Option Table
  | [], _ => none
  | (k, v) :: rest, fid => if k = fid then some v else Store.lookup rest fid

/-- Persisting a table under a `file_id` (the `pickle.dump` write). -/
def Store.insert (st : Store) (fid : String) (df : Table) : Store :=
  (fid, df) :: st

/-- One `_uploaded_data` entry in main.py: `{'df': df, 'filename': filename}`. -/
structure MainEntry where
  df : Table
  filename : String
deriving DecidableEq, Repr

/-- main.py's process-global `_uploaded_data` dict, in insertion order. -/
abbrev MainStore : Type := List (String × MainEntry)

/-- routes.py `upload_csv` (routes.py:27-69).  `freshId` is the generated
    `uuid.uuid4()` value. -/
def routes_upload (readCsv : Encoding → Except PyErr Table)
    (toDictErr : Table → Option PyErr) (filename freshId : String)
    (store : Store) : Except ApiError (FileUploadResponse × Store) :=
  if !pyEndswith filename ".csv" then
    Except.error (ApiError.invalidInput "File must be a CSV")
  else
    match validate_csv readCsv with
    | (false, msg, _) => Except.error (ApiError.invalidInput msg)
    | (true, _, df) =>
      if df.isEmpty then
        Except.error
          (ApiError.invalidInput
            "Uploaded CSV contains only headers and no data rows.")
      else
        Except.ok
          ({ message := "Successfully uploaded " ++ filename,
             total_rows := df.rowCount, columns := df.cols,
             preview_data := get_preview_data toDictErr df,
             file_id := some freshId },
           store.insert freshId df)

/-- main.py `upload_csv` (main.py:53-90): no empty-data check, key
    `f"file_{len(_uploaded_data) + 1}"`, and no `file_id` in the response. -/
def main_upload (readCsv : Encoding → Except PyErr Table)
    (toDictErr : Table → Option PyErr) (filename : String)
    (store : MainStore) : Except ApiError (FileUploadResponse × MainStore) :=
  if !pyEndswith filename ".csv" then
    Except.error (ApiError.invalidInput "File must be a CSV")
  else
    match validate_csv readCsv with
    | (false, msg, _) => Except.error (ApiError.invalidInput msg)
    | (true, _, df) =>
      Except.ok
        ({ message := "Successfully uploaded " ++ filename,
           total_rows := df.rowCount, columns := df.cols,
           preview_data := get_preview_data toDictErr df,
           file_id := none },
         store ++ [("file_" ++ toString (store.length + 1), ⟨df, filename⟩)])

/-- The external calls a filter request makes, as oracles:
    `render` is `DataFrame.to_string(index=False)`, `gen` the OpenAI call in
    `generate_filter_code` (its exceptions re-raised, ai_service.py:67-69),
    `compile_` the builtin used by the validator, `codeSem` the semantics of
    `exec`-ing a code string, `execErr` whether that `exec` raises,
    `loadErr` whether `pickle.load` of the given `file_id`'s upload raises
    (routes.py:87-88; main.py reads its in-memory dict and has no load step),
    `saveErr` whether `df.to_csv` inside `save_filtered_results` raises for
    the filtered table (csv_service.py:58, re-raised at csv_service.py:61-63),
    and `toDictErr` whether `to_dict('records')` raises. -/
structure FilterOracles where
  render : Table → String
  gen : String → String → Except PyErr String
  compile_ : String → Except PyErr Unit
  codeSem : String → CodeEffect
  execErr : String → Table → Option PyErr
  loadErr : String → Option PyErr
  saveErr : Table → Option PyErr
  toDictErr : Table → Option PyErr

/-- The filter pipeline shared verbatim by routes.py:91-121 and
    main.py:108-136: sample, generate, validate, execute on a copy, save under
    the timestamped name, preview, respond.  Exceptions from generation,
    execution, or the result save (`save_filtered_results` re-raises any
    `to_csv` failure) are caught by the surrounding handler and surfaced as
    500s with the `f"Error filtering connections: {e}"` detail.  The preview
    step cannot raise (`get_preview_data` catches internally). -/
def filterPipeline (o : FilterOracles) (t : Timestamp) (df : Table)
    (prompt : String) : Except ApiError FilterResponse :=
  match o.gen prompt (o.render (df.head 5)) with
  | Except.error e =>
    Except.error
      (ApiError.serverError ("Error filtering connections: " ++ e.msg))
  | Except.ok code =>
    if !validate_filter_code o.compile_ code then
      Except.error (ApiError.serverError "Generated filter code is invalid")
    else
      match o.execErr code df with
      | some e =>
        Except.error
          (ApiError.serverError ("Error filtering connections: " ++ e.msg))
      | none =>
        let filtered := (o.codeSem code).result df
        match o.saveErr filtered with
        | some e =>
          Except.error
            (ApiError.serverError ("Error filtering connections: " ++ e.msg))
        | none =>
          Except.ok
            { message := "Successfully filtered " ++ toString filtered.rowCount
                ++ " connections from " ++ toString df.rowCount ++ " total",
              filtered_count := filtered.rowCount,
              total_count := df.rowCount,
              preview_data := get_preview_data o.toDictErr filtered,
              download_url := "/api/download/" ++ publishFilename t }

/-- What a filter request produced: the HTTP result, whether the code
    generator was ever invoked, and which stored table the pipeline ran on. -/
structure FilterOutcome where
  result : Except ApiError FilterResponse
  generatorCalled : Bool
  tableUsed : Option Table

/-- routes.py `filter_connections` (routes.py:71-127): `if not
    request.file_id` (`None` and `""` are falsy) → 400; missing pickle file →
    400; a `pickle.load` failure is caught by the route's handler as a 500
    before the generator is reached; only then the pipeline runs. -/
def routes_filter (o : FilterOracles) (t : Timestamp) (store : Store)
    (req : FilterRequest) : FilterOutcome :=
  match req.file_id with
  | none =>
    ⟨Except.error
        (ApiError.invalidInput "No file_id provided. Please upload a file first."),
      false, none⟩
  | some fid =>
    if fid = "" then
      ⟨Except.error
          (ApiError.invalidInput
            "No file_id provided. Please upload a file first."),
        false, none⟩
    else
      match store.lookup fid with
      | none =>
        ⟨Except.error
            (ApiError.invalidInput
              "Uploaded file not found. Please upload again."),
          false, none⟩
      | some df =>
        match o.loadErr fid with
        | some e =>
          ⟨Except.error
              (ApiError.serverError ("Error filtering connections: " ++ e.msg)),
            false, none⟩
        | none => ⟨filterPipeline o t df req.prompt, true, some df⟩

/-- main.py `filter_connections` (main.py:92-142): 400 only when
    `_uploaded_data` is empty; otherwise the first stored entry is used and the
    request's `file_id` is never read. -/
def main_filter (o : FilterOracles) (t : Timestamp) (store : MainStore)
    (req : FilterRequest) : FilterOutcome :=
  match store with
  | [] =>
    ⟨Except.error
        (ApiError.invalidInput "No CSV file uploaded. Please upload a file first."),
      false, none⟩
  | entry :: _ =>
    ⟨filterPipeline o t entry.2.df req.prompt, true, some entry.2.df⟩

/-- Oracles for a run in which every external call succeeds: the generator
    returns a fixed valid line, compilation succeeds, execution keeps the
    table unchanged, and the load, save and record-conversion steps never
    raise. -/
def okOracles : FilterOracles :=
  { render := fun _ => "sample",
    gen := fun _ _ => Except.ok "df = df[df.A > 0]",
    compile_ := compileOk,
    codeSem := fun _ => ⟨id, id⟩,
    execErr := fun _ _ => none,
    loadErr := fun _ => none,
    saveErr := fun _ => none,
    toDictErr := noDictErr }

/-- A `_uploaded_data` store holding exactly one upload, keyed `file_1`. -/
def demoMainStore : MainStore := [("file_1", ⟨demoTable, "connections.csv"⟩)]

/-- A filter request carrying a `file_id` that no upload ever returned. -/
def reqUnknown : FilterRequest := ⟨"people in HR", some "no-such-file"⟩

/-- Whether an outcome is a success response. -/
def resultIsOk (out : FilterOutcome) : Bool :=
  match out.result with
  | Except.ok _ => true
  | Except.error _ => false

/-- A header-only parse result: column names, zero data rows. -/
def headerOnlyTable : Table := ⟨["Name", "Position"], []⟩

/-- A parse oracle whose first (UTF-8) attempt yields the header-only table. -/
def readHeaderOnly : Encoding → Except PyErr Table :=
  fun _ => Except.ok headerOnlyTable

/-- C1: `validate_filter_code` returns true exactly when the code starts with
    the literal prefix `df = df[` and the host `compile` accepts it; no other
    check is performed, so any compiling text with the prefix is accepted. -/
theorem validate_filter_code_iff
    (compile_ : String → Except PyErr Unit) (code : String) :
    validate_filter_code compile_ code = true ↔
      (pyStartswith code "df = df[" = true ∧ compile_ code = Except.ok ()) := by
  unfold validate_filter_code validate_body
  cases hpre : pyStartswith code "df = df[" with
  | false => simp [hpre]
  | true =>
    cases hc : compile_ code with
    | ok u => cases u; simp [hpre, hc]
    | error e => simp [hpre, hc]

/-- Witness for C1: a concrete prefixed, compiling string is accepted. -/
theorem validate_filter_code_iff_witness :
    validate_filter_code compileOk "df = df[df.A > 0]" = true :=
  (validate_filter_code_iff compileOk "df = df[df.A > 0]").mpr
    ⟨by decide, rfl⟩

/-- C8: `validate_filter_code` is total into booleans and any exception raised
    internally (by the `compile` call) yields `false` rather than propagating:
    whatever exception the compile oracle raises, the function returns `false`. -/
theorem validate_filter_code_total_on_error
    (compile_ : String → Except PyErr Unit) (code : String) (e : PyErr)
    (h : compile_ code = Except.error e) :
    validate_filter_code compile_ code = false := by
  unfold validate_filter_code validate_body
  cases hpre : pyStartswith code "df = df[" with
  | false => simp [hpre]
  | true => simp [hpre, h]

/-- Witness for C8: the always-raising compile oracle still yields `false`,
    not an exception, on a prefixed input. -/
theorem validate_filter_code_total_on_error_witness :
    validate_filter_code compileFail "df = df[df.A > 0]" = false :=
  validate_filter_code_total_on_error compileFail "df = df[df.A > 0]"
    ⟨"SyntaxError"⟩ rfl

/-- C5: `validate_csv` attempts UTF-8, then latin-1, then cp1252, in that
    order; it returns the table of the first encoding that parses, and only
    when all three raise does it return the `InvalidFormat` failure triple. -/
theorem validate_csv_first_encoding_wins
    (readCsv : Encoding → Except PyErr Table) :
    (∀ df, readCsv Encoding.utf8 = Except.ok df →
      validate_csv readCsv = (true, "", df)) ∧
    (∀ e df, readCsv Encoding.utf8 = Except.error e →
      readCsv Encoding.latin1 = Except.ok df →
      validate_csv readCsv = (true, "", df)) ∧
    (∀ e₁ e₂ df, readCsv Encoding.utf8 = Except.error e₁ →
      readCsv Encoding.latin1 = Except.error e₂ →
      readCsv Encoding.cp1252 = Except.ok df →
      validate_csv readCsv = (true, "", df)) ∧
    (∀ e₁ e₂ e₃, readCsv Encoding.utf8 = Except.error e₁ →
      readCsv Encoding.latin1 = Except.error e₂ →
      readCsv Encoding.cp1252 = Except.error e₃ →
      validate_csv readCsv = (false, csvFailMsg, emptyTable)) := by
  refine ⟨fun df h1 => ?_, fun e df h1 h2 => ?_, fun e₁ e₂ df h1 h2 h3 => ?_,
    fun e₁ e₂ e₃ h1 h2 h3 => ?_⟩ <;>
    simp [validate_csv, encodingList, tryEncodings, h1] <;>
    simp [h2] <;> simp [h3]

/-- Witness for C5: UTF-8 raises, latin-1 parses, and `validate_csv` returns
    the latin-1 table; with every encoding raising, it returns the failure
    triple. -/
theorem validate_csv_first_encoding_wins_witness :
    validate_csv readLatin1Ok = (true, "", demoTable) ∧
    validate_csv readAllFail = (false, csvFailMsg, emptyTable) :=
  ⟨(validate_csv_first_encoding_wins readLatin1Ok).2.1 ⟨"UnicodeDecodeError"⟩
      demoTable rfl rfl,
   (validate_csv_first_encoding_wins readAllFail).2.2.2 ⟨"ParserError"⟩
      ⟨"ParserError"⟩ ⟨"ParserError"⟩ rfl rfl rfl⟩

/-- C10: `get_preview_data` never raises: when record conversion succeeds it
    returns the first `min n (rowCount)` rows, in table order, as
    field-name→value records, with `n` defaulting to 5; when conversion raises
    internally it returns the empty list instead of propagating. -/
theorem get_preview_data_spec (toDictErr : Table → Option PyErr)
    (df : Table) (n : Nat) :
    (toDictErr (df.head n) = none →
      get_preview_data toDictErr df n =
        (df.rows.take n).map (fun r => df.cols.zip r) ∧
      (get_preview_data toDictErr df n).length = min n df.rowCount) ∧
    (∀ e, toDictErr (df.head n) = some e →
      get_preview_data toDictErr df n = []) ∧
    get_preview_data toDictErr df = get_preview_data toDictErr df 5 := by
  refine ⟨fun h => ⟨?_, ?_⟩, fun e h => ?_, rfl⟩ <;>
    simp only [Table.head] at h <;>
    simp [get_preview_data, Table.head, Table.toRecords, h, Table.rowCount,
      List.length_take]

/-- Witness for C10: on a 3-row table with bound 2 the preview is the first
    two records, and with a raising conversion it is empty. -/
theorem get_preview_data_spec_witness :
    get_preview_data noDictErr demoTable 2 =
      [[("Name", "Alice"), ("Position", "HR Manager")],
       [("Name", "Bob"), ("Position", "Software Engineer")]] ∧
    get_preview_data failDictErr demoTable 2 = [] :=
  ⟨((get_preview_data_spec noDictErr demoTable 2).1 rfl).1.trans (by rfl),
   (get_preview_data_spec failDictErr demoTable 2).2.1 ⟨"ValueError"⟩ rfl⟩

/-- Mutating an object other than `i` leaves `i`'s content unchanged. -/
theorem Heap.lookup_set_ne (h : Heap) (i j : Nat) (t : Table) (hne : j ≠ i) :
    Heap.lookup (Heap.set h j t) i = Heap.lookup h i := by
  induction h with
  | nil => rfl
  | cons p rest ih =>
    obtain ⟨k, tk⟩ := p
    by_cases hk : k = j
    · subst hk
      simp [Heap.set, Heap.lookup, hne, ih]
    · simp [Heap.set, Heap.lookup, hk, ih]

/-- C2 (amended, holds for the API endpoints): when the executor binds a fresh
    copy (`copyId` a fresh object id, in particular distinct from the stored
    object's id), any in-place effect of the generated code lands on the copy:
    the stored table is unchanged afterwards, and the filter result is the
    code's rebinding applied to the stored content. -/
theorem exec_on_copy_preserves_stored_table
    (h : Heap) (storedId copyId : Nat) (code : CodeEffect)
    (hne : copyId ≠ storedId) :
    ((execOnCopy h storedId copyId code).1).lookup storedId =
      h.lookup storedId ∧
    (execOnCopy h storedId copyId code).2 =
      (h.lookup storedId).map code.result := by
  cases hl : h.lookup storedId with
  | none => simp [execOnCopy, hl]
  | some df =>
    simp only [execOnCopy, hl, Option.map_some]
    refine ⟨?_, rfl⟩
    have hset : Heap.set (Heap.alloc h copyId df) copyId (code.inPlace df) =
        (copyId, code.inPlace df) :: Heap.set h copyId (code.inPlace df) := by
      simp [Heap.alloc, Heap.set]
    rw [hset]
    simp [Heap.lookup, hne,
      Heap.lookup_set_ne h storedId copyId (code.inPlace df) hne, hl]

/-- Counterexample to C2 as stated: the repository's CLI executor
    (app.py:79-82) does not bind a working copy — it binds the caller's table
    itself — so this validated, prefix-respecting, compiling code string
    mutates the caller's original table (3 rows before, 0 after). -/
theorem exec_no_copy_mutates_caller_table :
    validate_filter_code compileOk
      "df = df[[c for c in df.columns if df.drop(df.index, inplace=True) is None]]"
      = true ∧
    ((execNoCopy demoHeap 0 dropAllInPlace).1).lookup 0 ≠ some demoTable := by
  exact ⟨by decide, by decide⟩

/-- Witness for the amended C2: on a concrete heap with a fresh copy id, the
    stored table is untouched even by the in-place-emptying code. -/
theorem exec_on_copy_preserves_stored_table_witness :
    ((execOnCopy demoHeap 0 1 dropAllInPlace).1).lookup 0 =
      Heap.lookup demoHeap 0 ∧
    (execOnCopy demoHeap 0 1 dropAllInPlace).2 =
      (Heap.lookup demoHeap 0).map dropAllInPlace.result :=
  exec_on_copy_preserves_stored_table demoHeap 0 1 dropAllInPlace
    (by decide)

/-- Counterexample to C6 as stated: two publish operations at distinct
    instants (separated by under a second) generate the *same* filename, so
    the second `to_csv` write overwrites the first artifact. -/
theorem save_filtered_results_collision :
    tsA ≠ tsB ∧
      save_filtered_results tsA none = save_filtered_results tsB none :=
  ⟨by decide, rfl⟩

/-- Unfolding lemma: `(String.mk l).data` is `l`. -/
theorem stringDataMk (l : List Char) : (String.mk l).data = l := rfl

/-- Digit characters determine digits. -/
theorem digitChar_inj : ∀ a < 10, ∀ b < 10, digitChar a = digitChar b → a = b := by
  decide

/-- Two-digit zero-padded renderings are injective below 100. -/
theorem pad2_inj (n m : Nat) (hn : n < 100) (hm : m < 100)
    (h : pad2 n = pad2 m) : n = m := by
  simp only [pad2, List.cons.injEq, and_true] at h
  obtain ⟨h1, h2⟩ := h
  have e1 := digitChar_inj (n / 10) (by omega) (m / 10) (by omega) h1
  have e2 := digitChar_inj (n % 10) (by omega) (m % 10) (by omega) h2
  omega

/-- Four-digit zero-padded renderings are injective below 10000. -/
theorem pad4_inj (n m : Nat) (hn : n < 10000) (hm : m < 10000)
    (h : pad4 n = pad4 m) : n = m := by
  simp only [pad4, List.cons.injEq, and_true] at h
  obtain ⟨h1, h2, h3, h4⟩ := h
  have e1 := digitChar_inj (n / 1000) (by omega) (m / 1000) (by omega) h1
  have e2 := digitChar_inj (n / 100 % 10) (by omega) (m / 100 % 10) (by omega) h2
  have e3 := digitChar_inj (n / 10 % 10) (by omega) (m / 10 % 10) (by omega) h3
  have e4 := digitChar_inj (n % 10) (by omega) (m % 10) (by omega) h4
  omega

/-- Lemma `List.append_inj` with the compared prefixes supplied explicitly, so the
    split point of a concatenation equality is pinned by the caller. -/
theorem appendInjLen {α : Type} (a c b d : List α) (h : a ++ b = c ++ d)
    (hlen : a.length = c.length) : a = c ∧ b = d :=
  List.append_inj h hlen

/-- The rendered `%Y%m%d_%H%M%S` text determines the second-resolution fields. -/
theorem strftimeYmdHMS_inj (t₁ t₂ : Timestamp)
    (h₁ : t₁.fieldsInRange) (h₂ : t₂.fieldsInRange)
    (h : strftimeYmdHMS t₁ = strftimeYmdHMS t₂) :
    t₁.secondsTrunc = t₂.secondsTrunc := by
  obtain ⟨hy₁, hmo₁, hd₁, hh₁, hmi₁, hs₁⟩ := h₁
  obtain ⟨hy₂, hmo₂, hd₂, hh₂, hmi₂, hs₂⟩ := h₂
  unfold strftimeYmdHMS at h
  simp only [List.append_assoc, List.singleton_append, List.cons_append] at h
  obtain ⟨ey, h⟩ := appendInjLen (pad4 t₁.year) (pad4 t₂.year) _ _ h rfl
  obtain ⟨emo, h⟩ := appendInjLen (pad2 t₁.month) (pad2 t₂.month) _ _ h rfl
  obtain ⟨ed, h⟩ := appendInjLen (pad2 t₁.day) (pad2 t₂.day) _ _ h rfl
  simp only [List.cons.injEq] at h
  obtain ⟨eh, es⟩ := appendInjLen (pad2 t₁.hour) (pad2 t₂.hour) _ _ h.2 rfl
  obtain ⟨emi, esec⟩ :=
    appendInjLen (pad2 t₁.minute) (pad2 t₂.minute) _ _ es rfl
  have := pad4_inj _ _ hy₁ hy₂ ey
  have := pad2_inj _ _ hmo₁ hmo₂ emo
  have := pad2_inj _ _ hd₁ hd₂ ed
  have := pad2_inj _ _ hh₁ hh₂ eh
  have := pad2_inj _ _ hmi₁ hmi₂ emi
  have := pad2_inj _ _ hs₁ hs₂ esec
  simp only [Timestamp.secondsTrunc, Prod.mk.injEq]
  omega

/-- C6 (amended): the generated artifact filename is a function of the
    publish instant truncated to whole seconds: two publishes whose timestamps
    differ in any second-resolution field produce different (time-ordered)
    names, but two publishes within the same calendar second produce the same
    filename, and the later `to_csv` write overwrites the earlier artifact. -/
theorem save_filtered_results_name_iff_second (t₁ t₂ : Timestamp)
    (h₁ : t₁.fieldsInRange) (h₂ : t₂.fieldsInRange) :
    save_filtered_results t₁ none = save_filtered_results t₂ none ↔
      t₁.secondsTrunc = t₂.secondsTrunc := by
  constructor
  · intro h
    have hd := congrArg String.data h
    simp only [save_filtered_results, publishFilename, Option.getD,
      String.data_append, stringDataMk, List.append_assoc] at hd
    have hd₂ := List.append_cancel_left hd
    have hd₃ := List.append_cancel_left hd₂
    have hd₄ := List.append_cancel_left hd₃
    exact strftimeYmdHMS_inj t₁ t₂ h₁ h₂ (List.append_cancel_right hd₄)
  · intro h
    obtain ⟨t₁y, t₁mo, t₁d, t₁h, t₁mi, t₁s, t₁n⟩ := t₁
    obtain ⟨t₂y, t₂mo, t₂d, t₂h, t₂mi, t₂s, t₂n⟩ := t₂
    simp only [Timestamp.secondsTrunc, Prod.mk.injEq] at h
    obtain ⟨e1, e2, e3, e4, e5, e6⟩ := h
    subst e1; subst e2; subst e3; subst e4; subst e5; subst e6
    rfl

/-- Witness for the amended C6: two instants one second apart (so with equal
    field bounds but different `secondsTrunc`) get different filenames. -/
theorem save_filtered_results_name_iff_second_witness :
    save_filtered_results ⟨2026, 10, 12, 9, 30, 0, 0⟩ none ≠
      save_filtered_results ⟨2026, 10, 12, 9, 30, 1, 0⟩ none := by
  intro h
  have := (save_filtered_results_name_iff_second
    ⟨2026, 10, 12, 9, 30, 0, 0⟩ ⟨2026, 10, 12, 9, 30, 1, 0⟩
    (by constructor <;> simp) (by constructor <;> simp)).1 h
  simp [Timestamp.secondsTrunc] at this

/-- Exhaustive case split of one pipeline run: the generator raised, the code
    failed validation, execution raised, the result save raised, or everything
    succeeded.  Every error the pipeline can produce is a 500 `serverError`. -/
theorem filterPipeline_cases (o : FilterOracles) (t : Timestamp) (df : Table)
    (prompt : String) :
    (∃ e, o.gen prompt (o.render (df.head 5)) = Except.error e ∧
      filterPipeline o t df prompt =
        Except.error
          (ApiError.serverError ("Error filtering connections: " ++ e.msg))) ∨
    (∃ code, o.gen prompt (o.render (df.head 5)) = Except.ok code ∧
      validate_filter_code o.compile_ code = false ∧
      filterPipeline o t df prompt =
        Except.error (ApiError.serverError "Generated filter code is invalid")) ∨
    (∃ code e, o.gen prompt (o.render (df.head 5)) = Except.ok code ∧
      validate_filter_code o.compile_ code = true ∧
      o.execErr code df = some e ∧
      filterPipeline o t df prompt =
        Except.error
          (ApiError.serverError ("Error filtering connections: " ++ e.msg))) ∨
    (∃ code e, o.gen prompt (o.render (df.head 5)) = Except.ok code ∧
      validate_filter_code o.compile_ code = true ∧
      o.execErr code df = none ∧
      o.saveErr ((o.codeSem code).result df) = some e ∧
      filterPipeline o t df prompt =
        Except.error
          (ApiError.serverError ("Error filtering connections: " ++ e.msg))) ∨
    (∃ code, o.gen prompt (o.render (df.head 5)) = Except.ok code ∧
      validate_filter_code o.compile_ code = true ∧
      o.execErr code df = none ∧
      o.saveErr ((o.codeSem code).result df) = none ∧
      ∃ resp, filterPipeline o t df prompt = Except.ok resp) := by
  cases hg : o.gen prompt (o.render (df.head 5)) with
  | error e => exact Or.inl ⟨e, rfl, by simp [filterPipeline, hg]⟩
  | ok code =>
    cases hv : validate_filter_code o.compile_ code with
    | false =>
      exact Or.inr (Or.inl ⟨code, rfl, hv, by simp [filterPipeline, hg, hv]⟩)
    | true =>
      cases hx : o.execErr code df with
      | some e =>
        exact Or.inr (Or.inr (Or.inl
          ⟨code, e, rfl, hv, hx, by simp [filterPipeline, hg, hv, hx]⟩))
      | none =>
        cases hs : o.saveErr ((o.codeSem code).result df) with
        | some e =>
          exact Or.inr (Or.inr (Or.inr (Or.inl
            ⟨code, e, rfl, hv, hx, hs,
              by simp [filterPipeline, hg, hv, hx, hs]⟩)))
        | none =>
          have hp : ∃ resp, filterPipeline o t df prompt = Except.ok resp := by
            simp [filterPipeline, hg, hv, hx, hs]
          exact Or.inr (Or.inr (Or.inr (Or.inr ⟨code, rfl, hv, hx, hs, hp⟩)))

/-- The pipeline's result-save step and its failure 500, isolated: when
    generation, validation and execution all pass but `to_csv` raises inside
    `save_filtered_results`, the request ends as a 500 `serverError`. -/
theorem filterPipeline_save_failure (o : FilterOracles) (t : Timestamp)
    (df : Table) (prompt code : String) (e : PyErr)
    (hg : o.gen prompt (o.render (df.head 5)) = Except.ok code)
    (hv : validate_filter_code o.compile_ code = true)
    (hx : o.execErr code df = none)
    (hs : o.saveErr ((o.codeSem code).result df) = some e) :
    filterPipeline o t df prompt =
      Except.error
        (ApiError.serverError ("Error filtering connections: " ++ e.msg)) := by
  simp [filterPipeline, hg, hv, hx, hs]

/-- The pipeline never produces a 400-class `invalidInput` error. -/
theorem filterPipeline_ne_invalidInput (o : FilterOracles) (t : Timestamp)
    (df : Table) (prompt : String) (d : String) :
    filterPipeline o t df prompt ≠ Except.error (ApiError.invalidInput d) := by
  rcases filterPipeline_cases o t df prompt with
    ⟨e, -, hp⟩ | ⟨code, -, -, hp⟩ | ⟨code, e, -, -, -, hp⟩ |
    ⟨code, e, -, -, -, -, hp⟩ | ⟨code, -, -, -, -, resp, hp⟩ <;>
    rw [hp] <;> simp

/-- C3 (amended): in routes.py's filter endpoint a missing, empty, or unknown
    `file_id` yields a 400-class `invalidInput` error before the generator is
    ever called, and every 500-class error of that endpoint comes from a
    storage step raising (the `pickle.load` of the upload, or the `to_csv`
    write inside `save_filtered_results`), the generator raising, the
    generated code failing validation, or execution raising; main.py's filter
    endpoint instead calls the generator whenever any upload exists, whatever
    `file_id` the request carries. -/
theorem routes_filter_file_id_errors (o : FilterOracles) (t : Timestamp)
    (store : Store) (req : FilterRequest) :
    ((req.file_id = none ∨ req.file_id = some "" ∨
        ∃ fid, req.file_id = some fid ∧ store.lookup fid = none) →
      (routes_filter o t store req).generatorCalled = false ∧
      ∃ d, (routes_filter o t store req).result =
        Except.error (ApiError.invalidInput d)) ∧
    (∀ d, (routes_filter o t store req).result =
        Except.error (ApiError.serverError d) →
      ∃ fid df, req.file_id = some fid ∧ store.lookup fid = some df ∧
        ((∃ e, o.loadErr fid = some e) ∨
         (o.loadErr fid = none ∧
           ((∃ e, o.gen req.prompt (o.render (df.head 5)) = Except.error e) ∨
            (∃ code, o.gen req.prompt (o.render (df.head 5)) = Except.ok code ∧
               validate_filter_code o.compile_ code = false) ∨
            (∃ code e,
               o.gen req.prompt (o.render (df.head 5)) = Except.ok code ∧
               validate_filter_code o.compile_ code = true ∧
               o.execErr code df = some e) ∨
            (∃ code e,
               o.gen req.prompt (o.render (df.head 5)) = Except.ok code ∧
               validate_filter_code o.compile_ code = true ∧
               o.execErr code df = none ∧
               o.saveErr ((o.codeSem code).result df) = some e))))) ∧
    (∀ st : MainStore, st ≠ [] →
      (main_filter o t st req).generatorCalled = true) := by
  refine ⟨?_, ?_, ?_⟩
  · rintro (hid | hid | ⟨fid, hid, hlook⟩)
    · exact ⟨by simp [routes_filter, hid],
        "No file_id provided. Please upload a file first.",
        by simp [routes_filter, hid]⟩
    · exact ⟨by simp [routes_filter, hid],
        "No file_id provided. Please upload a file first.",
        by simp [routes_filter, hid]⟩
    · by_cases hfe : fid = ""
      · subst hfe
        exact ⟨by simp [routes_filter, hid],
          "No file_id provided. Please upload a file first.",
          by simp [routes_filter, hid]⟩
      · exact ⟨by simp [routes_filter, hid, hfe, hlook],
          "Uploaded file not found. Please upload again.",
          by simp [routes_filter, hid, hfe, hlook]⟩
  · intro d hd
    match hid : req.file_id with
    | none => simp [routes_filter, hid] at hd
    | some fid =>
      by_cases hfe : fid = ""
      · subst hfe; simp [routes_filter, hid] at hd
      · match hlook : store.lookup fid with
        | none => simp [routes_filter, hid, hfe, hlook] at hd
        | some df =>
          cases hload : o.loadErr fid with
          | some e => exact ⟨fid, df, rfl, hlook, Or.inl ⟨e, hload⟩⟩
          | none =>
            have hres : (routes_filter o t store req).result =
                filterPipeline o t df req.prompt := by
              simp [routes_filter, hid, hfe, hlook, hload]
            rw [hres] at hd
            refine ⟨fid, df, rfl, hlook, Or.inr ⟨hload, ?_⟩⟩
            rcases filterPipeline_cases o t df req.prompt with
              ⟨e, hg, -⟩ | ⟨code, hg, hv, -⟩ | ⟨code, e, hg, hv, hx, -⟩ |
              ⟨code, e, hg, hv, hx, hs, -⟩ | ⟨code, hg, hv, hx, hs, resp, hp⟩
            · exact Or.inl ⟨e, hg⟩
            · exact Or.inr (Or.inl ⟨code, hg, hv⟩)
            · exact Or.inr (Or.inr (Or.inl ⟨code, e, hg, hv, hx⟩))
            · exact Or.inr (Or.inr (Or.inr ⟨code, e, hg, hv, hx, hs⟩))
            · rw [hp] at hd; cases hd
  · intro st hst
    match st with
    | [] => exact absurd rfl hst
    | entry :: rest => rfl

/-- Counterexample to C3 as stated: in main.py's filter endpoint (the app
    `run.py` serves), a request whose `file_id` was never returned by upload
    is *not* rejected — with one prior upload present, the code generator is
    called and the request succeeds. -/
theorem main_filter_accepts_unknown_file_id :
    demoMainStore.map Prod.fst = ["file_1"] ∧
    reqUnknown.file_id = some "no-such-file" ∧
    (main_filter okOracles tsA demoMainStore reqUnknown).generatorCalled = true ∧
    resultIsOk (main_filter okOracles tsA demoMainStore reqUnknown) = true := by
  exact ⟨rfl, rfl, rfl, by decide⟩

/-- Witness for the amended C3: on a concrete empty store and unknown id, the
    routes.py endpoint returns 400 without calling the generator. -/
theorem routes_filter_file_id_errors_witness :
    (routes_filter okOracles tsA [] ⟨"p", some "nope"⟩).generatorCalled = false ∧
    ∃ d, (routes_filter okOracles tsA [] ⟨"p", some "nope"⟩).result =
      Except.error (ApiError.invalidInput d) :=
  (routes_filter_file_id_errors okOracles tsA [] ⟨"p", some "nope"⟩).1
    (Or.inr (Or.inr ⟨"nope", rfl, rfl⟩))

/-- C9: main.py's filter endpoint ignores the request's `file_id` entirely —
    the outcome depends only on the prompt, the 400-class failure happens
    exactly when no upload has ever occurred, and otherwise the table filtered
    is the first entry of the process-global store. -/
theorem main_filter_ignores_request_file_id (o : FilterOracles)
    (t : Timestamp) (store : MainStore) :
    (∀ prompt fid₁ fid₂,
      main_filter o t store ⟨prompt, fid₁⟩ = main_filter o t store ⟨prompt, fid₂⟩) ∧
    (∀ req : FilterRequest,
      (∃ d, (main_filter o t store req).result =
        Except.error (ApiError.invalidInput d)) ↔ store = []) ∧
    (∀ (req : FilterRequest) (entry : String × MainEntry)
      (rest : MainStore), store = entry :: rest →
      (main_filter o t store req).tableUsed = some entry.2.df) := by
  refine ⟨?_, ?_, ?_⟩
  · intro prompt fid₁ fid₂
    cases store <;> rfl
  · intro req
    constructor
    · rintro ⟨d, hd⟩
      cases store with
      | nil => rfl
      | cons entry rest =>
        exact absurd hd (filterPipeline_ne_invalidInput o t entry.2.df req.prompt d)
    · rintro rfl
      exact ⟨_, rfl⟩
  · rintro req entry rest rfl
    rfl

/-- Witness for C9: with one concrete upload stored, a request with an
    unknown `file_id` is filtered against that first upload's table. -/
theorem main_filter_ignores_request_file_id_witness :
    (main_filter okOracles tsA demoMainStore reqUnknown).tableUsed =
      some demoTable :=
  (main_filter_ignores_request_file_id okOracles tsA demoMainStore).2.2
    reqUnknown ("file_1", ⟨demoTable, "connections.csv"⟩) [] rfl

/-- C4 (amended): routes.py's upload rejects a header-only parse with the
    specific EmptyData 400 error, before anything is persisted and without
    returning a handle; main.py's upload performs no empty-data check — it
    persists the header-only table into the process-global store and returns a
    success response (with no handle, since it never sets `file_id`). -/
theorem upload_header_only_handling (readCsv : Encoding → Except PyErr Table)
    (toDictErr : Table → Option PyErr) (filename freshId : String)
    (store : Store) (mstore : MainStore) (df : Table) :
    (pyEndswith filename ".csv" = true →
      validate_csv readCsv = (true, "", df) → df.rows = [] →
      routes_upload readCsv toDictErr filename freshId store =
        Except.error
          (ApiError.invalidInput
            "Uploaded CSV contains only headers and no data rows.")) ∧
    (pyEndswith filename ".csv" = true →
      validate_csv readCsv = (true, "", df) →
      main_upload readCsv toDictErr filename mstore =
        Except.ok
          ({ message := "Successfully uploaded " ++ filename,
             total_rows := df.rowCount, columns := df.cols,
             preview_data := get_preview_data toDictErr df,
             file_id := none },
           mstore ++ [("file_" ++ toString (mstore.length + 1), ⟨df, filename⟩)])) := by
  constructor
  · intro hext hv hrows
    have hempty : df.isEmpty = true := by
      simp [Table.isEmpty, hrows]
    simp [routes_upload, hext, hv, hempty]
  · intro hext hv
    simp [main_upload, hext, hv]

/-- Counterexample to C4 as stated: main.py's upload endpoint accepts a
    header-only CSV — it returns a success response and persists the empty
    table into `_uploaded_data` — instead of failing with the EmptyData 400. -/
theorem main_upload_accepts_header_only :
    main_upload readHeaderOnly noDictErr "connections.csv" [] =
      Except.ok
        ({ message := "Successfully uploaded connections.csv",
           total_rows := 0, columns := ["Name", "Position"],
           preview_data := [], file_id := none },
         [("file_1", ⟨headerOnlyTable, "connections.csv"⟩)]) := by
  rfl

/-- Witness for the amended C4: a concrete header-only upload against
    routes.py is rejected with the EmptyData 400. -/
theorem upload_header_only_handling_witness :
    routes_upload readHeaderOnly noDictErr "connections.csv" "uuid-1" [] =
      Except.error
        (ApiError.invalidInput
          "Uploaded CSV contains only headers and no data rows.") :=
  (upload_header_only_handling readHeaderOnly noDictErr "connections.csv"
    "uuid-1" [] [] headerOnlyTable).1 (by decide) rfl rfl

/-- C7: whenever routes.py's upload succeeds, the returned handle retrieves
    from the post-upload store a table whose row count and column count equal
    those of the direct parse of the same bytes (the table `validate_csv`
    produced for that content). -/
theorem routes_upload_roundtrip_counts (readCsv : Encoding → Except PyErr Table)
    (toDictErr : Table → Option PyErr) (filename freshId : String)
    (store : Store) (resp : FileUploadResponse) (store' : Store)
    (h : routes_upload readCsv toDictErr filename freshId store =
      Except.ok (resp, store')) :
    resp.file_id = some freshId ∧
    ∃ df, store'.lookup freshId = some df ∧
      df.rowCount = (validate_csv readCsv).2.2.rowCount ∧
      df.colCount = (validate_csv readCsv).2.2.colCount := by
  match hv : validate_csv readCsv with
  | (false, msg, t) =>
    cases hext : pyEndswith filename ".csv" <;>
      simp [routes_upload, hext, hv] at h
  | (true, msg, df) =>
    cases hext : pyEndswith filename ".csv" with
    | false => simp [routes_upload, hext] at h
    | true =>
      cases hempty : df.isEmpty with
      | true => simp [routes_upload, hext, hv, hempty] at h
      | false =>
        simp only [routes_upload, hext, hv, hempty, Bool.not_true,
          Bool.false_eq_true, if_false, Except.ok.injEq, Prod.mk.injEq] at h
        obtain ⟨hresp, hstore⟩ := h
        subst hresp; subst hstore
        refine ⟨rfl, df, ?_, rfl, rfl⟩
        simp [Store.insert, Store.lookup]

/-- Witness for C7: a concrete successful upload (UTF-8 fails, latin-1
    parses) round-trips with matching counts. -/
theorem routes_upload_roundtrip_counts_witness :
    ({ message := "Successfully uploaded conn.csv",
       total_rows := 3, columns := ["Name", "Position"],
       preview_data := demoTable.toRecords,
       file_id := some "uuid-1" } : FileUploadResponse).file_id =
        some "uuid-1" ∧
    ∃ df, Store.lookup [("uuid-1", demoTable)] "uuid-1" = some df ∧
      df.rowCount = (validate_csv readLatin1Ok).2.2.rowCount ∧
      df.colCount = (validate_csv readLatin1Ok).2.2.colCount :=
  routes_upload_roundtrip_counts readLatin1Ok noDictErr "conn.csv" "uuid-1" []
    { message := "Successfully uploaded conn.csv",
      total_rows := 3, columns := ["Name", "Position"],
      preview_data := demoTable.toRecords,
      file_id := some "uuid-1" }
    [("uuid-1", demoTable)] (by rfl)

end LinkReach
